import Mathlib

/-!
Verification development for the email clustering pipeline
(`backend/clustering/preprocessor.py`, `backend/clustering/vectorizer.py`,
`backend/clustering/clusterer.py`, `config.py`).

Python strings are modelled as `List Char` (`Str`).  Each regex substitution
used by `EmailPreprocessor.clean_text` is implemented as a left-to-right
scanner (`scanGo`) that mirrors `re.sub` semantics: at every position it
attempts a match, removes the matched span and continues after it, otherwise
emits the character and advances by one.  The scanner carries the word-ness of
the previous character so that `\b` word boundaries can be tested.  Recursion
is structural over a fuel argument initialised with the input length, which
bounds the number of scanning steps (each step consumes at least one
character), so the fuel never runs out.
-/

/-- Python strings (sequences of characters). -/
abbrev Str := List Char

/-- Shorthand to turn a Lean string literal into the `Str` model. -/
def str (s : String) : Str := s.toList

/-- ASCII word character, Python regex `\w`: `[A-Za-z0-9_]`. -/
def isWordChar (c : Char) : Bool := c.isAlphanum || c == '_'

/-- Python regex `\s` (ASCII): space, tab, newline, carriage return,
vertical tab, form feed. -/
def isSpaceChar (c : Char) : Bool :=
  c == ' ' || c == '\t' || c == '\n' || c == '\r' || c == '\x0b' || c == '\x0c'

/-- Predicate `startsWith needle hay`: `needle` begins `hay`. -/
def startsWith : Str → Str → Bool
  | [], _ => true
  | _ :: _, [] => false
  | c :: n, d :: h => c == d && startsWith n h

/-- Predicate `isSubstring needle hay`: Python's `needle in hay` (contiguous substring). -/
def isSubstring (needle : Str) : Str → Bool
  | [] => needle.isEmpty
  | d :: h => startsWith needle (d :: h) || isSubstring needle h

theorem startsWith_iff (n h : Str) : startsWith n h = true ↔ ∃ t, h = n ++ t := by
  induction n generalizing h with
  | nil => simp [startsWith]
  | cons c n ih =>
    cases h with
    | nil => simp [startsWith]
    | cons d hs =>
      simp only [startsWith, Bool.and_eq_true, beq_iff_eq, ih]
      constructor
      · rintro ⟨rfl, t, rfl⟩; exact ⟨t, rfl⟩
      · rintro ⟨t, ht⟩
        cases ht
        exact ⟨rfl, t, rfl⟩

theorem isSubstring_iff (n h : Str) : isSubstring n h = true ↔ ∃ s t, h = s ++ n ++ t := by
  induction h with
  | nil =>
    cases n with
    | nil => simp [isSubstring]
    | cons c ns => simp [isSubstring, List.isEmpty]
  | cons d hs ih =>
    simp only [isSubstring, Bool.or_eq_true, startsWith_iff, ih]
    constructor
    · rintro (⟨t, ht⟩ | ⟨s, t, rfl⟩)
      · exact ⟨[], t, by simpa using ht⟩
      · exact ⟨d :: s, t, by simp⟩
    · rintro ⟨s, t, ht⟩
      cases s with
      | nil => exact Or.inl ⟨t, by simpa using ht⟩
      | cons a s =>
        right
        refine ⟨s, t, ?_⟩
        simp only [List.cons_append, List.cons.injEq] at ht
        simpa [List.append_assoc] using ht.2

theorem isSubstring_append_left (n g h : Str) (hn : isSubstring n h = true) :
    isSubstring n (g ++ h) = true := by
  rw [isSubstring_iff] at hn ⊢
  obtain ⟨s, t, rfl⟩ := hn
  exact ⟨g ++ s, t, by simp⟩

theorem isSubstring_map (f : Char → Char) (n h : Str) (hn : isSubstring n h = true) :
    isSubstring (n.map f) (h.map f) = true := by
  rw [isSubstring_iff] at hn ⊢
  obtain ⟨s, t, rfl⟩ := hn
  exact ⟨s.map f, t.map f, by simp⟩

theorem isSubstring_trans (a b c : Str) (hab : isSubstring a b = true)
    (hbc : isSubstring b c = true) : isSubstring a c = true := by
  rw [isSubstring_iff] at hab hbc ⊢
  obtain ⟨s, t, rfl⟩ := hab
  obtain ⟨u, v, rfl⟩ := hbc
  exact ⟨u ++ s, t ++ v, by simp⟩

/-!
## `re.sub` scanners

`scanGo tryM fuel prevW l` scans `l` left to right.  `tryM prevW l` decides
whether a match of the relevant pattern starts at the head of `l`; on success
it returns the word-ness of the last matched character together with the
remainder after the match (the matched span is deleted, mirroring
`re.sub(pat, '', text)`).  `prevW` is the word-ness of the character before
the current position (`false` at the start of the string), used for `\b`.
-/

def scanGo (tryM : Bool → Str → Option (Bool × Str)) : Nat → Bool → Str → Str
  | 0, _, l => l
  | _ + 1, _, [] => []
  | fuel + 1, prevW, c :: rest =>
    match tryM prevW (c :: rest) with
    | some (w, rest') => scanGo tryM fuel w rest'
    | none => c :: scanGo tryM fuel (isWordChar c) rest

/-- Entry point for a scanner: fuel is the input length (each scanning step
consumes at least one character, so this bound is never hit). -/
def runScan (tryM : Bool → Str → Option (Bool × Str)) (l : Str) : Str :=
  scanGo tryM l.length false l

/-- Matcher for the HTML-tag fallback pattern `<[^>]+>`
(`EmailPreprocessor._remove_html`; `BeautifulSoup(...).get_text()` on the
primary path behaves identically on the tag-shaped markup this pattern
describes and is the identity on tag-free text). -/
def tryHtmlAt (_ : Bool) (l : Str) : Option (Bool × Str) :=
  match l with
  | '<' :: tail =>
    let content := tail.takeWhile (fun c => c != '>')
    if content.isEmpty then none
    else if content.length < tail.length then some (false, tail.drop (content.length + 1))
    else none
  | _ => none

/-- Character class of the URL pattern
`http[s]?://(?:[a-zA-Z]|[0-9]|[$-_@.&+]|[!*\\(\\),]|(?:%[0-9a-fA-F][0-9a-fA-F]))+`:
the `%xx` alternative is subsumed by the `[$-_@.&+]` range (which spans
`0x24`–`0x5F` and already contains `%`, `@`, `.`, `&`, `+`). -/
def urlChar (c : Char) : Bool :=
  c.isAlpha || c.isDigit || ('$' ≤ c && c ≤ '_') ||
  c == '!' || c == '*' || c == '\\' || c == '(' || c == ')' || c == ','

/-- Matcher for the URL removal pattern of `clean_text`. -/
def tryUrlAt (_ : Bool) (l : Str) : Option (Bool × Str) :=
  if startsWith (str "https://") l then
    let rest0 := l.drop 8
    let run := rest0.takeWhile urlChar
    if run.isEmpty then none
    else some (isWordChar (run.getLastD ' '), rest0.drop run.length)
  else if startsWith (str "http://") l then
    let rest0 := l.drop 7
    let run := rest0.takeWhile urlChar
    if run.isEmpty then none
    else some (isWordChar (run.getLastD ' '), rest0.drop run.length)
  else none

/-- Local-part class `[A-Za-z0-9._%+-]` of the e-mail address pattern. -/
def localChar (c : Char) : Bool :=
  c.isAlphanum || c == '.' || c == '_' || c == '%' || c == '+' || c == '-'

/-- Domain class `[A-Za-z0-9.-]` of the e-mail address pattern. -/
def domainChar (c : Char) : Bool := c.isAlphanum || c == '.' || c == '-'

/-- Class `[A-Z|a-z]` of the e-mail pattern's top-level-domain part (the `|`
is literally inside the character class in the source regex). -/
def tldChar (c : Char) : Bool := c.isAlpha || c == '|'

/-- Backtracking of `[A-Za-z0-9.-]+\.[A-Z|a-z]{2,}\b` over the maximal
domain-character run `R`: the greedy `+` puts the `\.` at the rightmost
eligible dot (index ≥ 1 so the `+` is non-empty), the `{2,}` then takes the
maximal `tldChar` run `M` (length ≥ 2), and the trailing `\b` compares the
word-ness of `M`'s last character with the character following it (inside
`R`, or `next`, the character after `R`; end of input counts as non-word).
Returns the number of characters of `R` consumed by a successful match. -/
def emailSplit (R : Str) (next : Option Char) : Option Nat :=
  let ok := fun k =>
    let M := (R.drop (k + 1)).takeWhile tldChar
    let after : Option Char :=
      match (R.drop (k + 1 + M.length)).head? with
      | some c => some c
      | none => next
    decide (2 ≤ M.length) &&
      (isWordChar (M.getLastD ' ') != (after.map isWordChar).getD false)
  (((List.range R.length).filter
      (fun k => decide (1 ≤ k) && R.getD k ' ' == '.')).reverse.find? ok).map
    (fun k => k + 1 + ((R.drop (k + 1)).takeWhile tldChar).length)

/-- Matcher for the e-mail address pattern
`\b[A-Za-z0-9._%+-]+@[A-Za-z0-9.-]+\.[A-Z|a-z]{2,}\b`.  The local-part `+`
is effectively greedy without backtracking (a shorter run would be followed
by a local-class character, never by `@`). -/
def tryEmailAt (prevW : Bool) (l : Str) : Option (Bool × Str) :=
  match l with
  | [] => none
  | c :: _ =>
    if prevW == isWordChar c then none
    else
      let L := l.takeWhile localChar
      if L.isEmpty then none
      else
        match l.drop L.length with
        | '@' :: afterAt =>
          let R := afterAt.takeWhile domainChar
          let afterR := afterAt.drop R.length
          match emailSplit R afterR.head? with
          | some consumed => some (true, afterAt.drop consumed)
          | none => none
        | _ => none

/-- Consume exactly `n` ASCII digits. -/
def takeDigits : Nat → Str → Option Str
  | 0, l => some l
  | _ + 1, [] => none
  | n + 1, c :: rest => if c.isDigit then takeDigits n rest else none

/-- Consume an optional `[-.]` separator (taking it when present is
equivalent to the regex's greedy `[-.]?`: not taking a present separator
makes the following digit group fail immediately). -/
def skipSep : Str → Str
  | [] => []
  | c :: rest => if c == '-' || c == '.' then rest else c :: rest

/-- Matcher for the phone pattern `\b\d{3}[-.]?\d{3}[-.]?\d{4}\b`. -/
def tryPhoneAt (prevW : Bool) (l : Str) : Option (Bool × Str) :=
  match l with
  | [] => none
  | c :: _ =>
    if prevW || !c.isDigit then none
    else
      match takeDigits 3 l with
      | none => none
      | some r1 =>
        match takeDigits 3 (skipSep r1) with
        | none => none
        | some r2 =>
          match takeDigits 4 (skipSep r2) with
          | none => none
          | some r3 =>
            match r3.head? with
            | some d => if isWordChar d then none else some (true, r3)
            | none => some (true, r3)

/-- Matcher for the standalone-number pattern `\b\d+\b` (`\d+` takes the
maximal digit run; shortening it cannot satisfy the trailing `\b`). -/
def tryNumAt (prevW : Bool) (l : Str) : Option (Bool × Str) :=
  match l with
  | [] => none
  | c :: _ =>
    if prevW || !c.isDigit then none
    else
      let run := l.takeWhile Char.isDigit
      let rest := l.drop run.length
      match rest.head? with
      | some d => if isWordChar d then none else some (true, rest)
      | none => some (true, rest)

/-- Model of `re.sub(r'\s+', ' ', text)`: collapse whitespace runs to single spaces.
The flag records whether the scanner is inside a run already emitted. -/
def collapseWsGo (inRun : Bool) : Str → Str
  | [] => []
  | c :: rest =>
    if isSpaceChar c then
      if inRun then collapseWsGo true rest
      else ' ' :: collapseWsGo true rest
    else c :: collapseWsGo false rest

def collapseWs (l : Str) : Str := collapseWsGo false l

/-- Model of `text.lower()` (ASCII model). -/
def toLowerStr (l : Str) : Str := l.map Char.toLower

/-- Model of `re.sub(r'[^\w\s\-\.]', ' ', text)`: non-word, non-space characters other
than hyphen and period become spaces. -/
def stripPunct (l : Str) : Str :=
  l.map (fun c => if isWordChar c || isSpaceChar c || c == '-' || c == '.' then c else ' ')

/-- Model of `text.split()`: split on whitespace runs, dropping empty pieces. -/
def splitWs (l : Str) : List Str :=
  (l.splitOnP isSpaceChar).filter (fun w => !w.isEmpty)

/-- Model of `text.strip()`. -/
def trimWs (l : Str) : Str :=
  ((l.dropWhile isSpaceChar).reverse.dropWhile isSpaceChar).reverse

/-- Model of `EmailPreprocessor.clean_text`, step for step. -/
def cleanText (text : Str) : Str :=
  if text.isEmpty then []
  else
    let t1 := runScan tryHtmlAt text
    let t2 := runScan tryUrlAt t1
    let t3 := runScan tryEmailAt t2
    let t4 := runScan tryPhoneAt t3
    let t5 := collapseWs t4
    let t6 := toLowerStr t5
    let t7 := stripPunct t6
    let t8 := runScan tryNumAt t7
    let t9 := List.intercalate (str " ") (splitWs t8)
    trimWs t9

/-- Sanity check of the cleaning pipeline: tags, URLs, phone numbers,
addresses, punctuation and standalone numbers are removed. -/
theorem cleanText_sample :
    cleanText (str "Hello <b>World</b>! Visit http://x.com/a now, 555-123-4567 or a@b.com, 42 items") =
      str "hello world visit now or items" := by decide

/-- Cleaning turns "50% off ..." into "off ...": the percent sign becomes a
space and the standalone "50" is removed. -/
theorem cleanText_fifty_off :
    cleanText (str "50% off unsubscribe security alert") =
      str "off unsubscribe security alert" := by decide

/-!
## Preprocessor (`EmailPreprocessor`)
-/

/-- Model of `re.search(r'<([^>]+)>', sender)`: content of the first angle-bracket
group (non-empty, no `>` inside). -/
def findAngle : Str → Option Str
  | [] => none
  | '<' :: tail =>
    let content := tail.takeWhile (fun c => c != '>')
    if !content.isEmpty && content.length < tail.length then some content
    else findAngle tail
  | _ :: tail => findAngle tail

/-- Model of `re.search(r'@([^@]+)', email_addr)`: the non-empty run after the first
eligible `@`. -/
def afterAt : Str → Option Str
  | [] => none
  | '@' :: tail =>
    let content := tail.takeWhile (fun c => c != '@')
    if content.isEmpty then afterAt tail else some content
  | _ :: tail => afterAt tail

/-- Model of `re.sub(r'^(mail|smtp|pop|imap)\.', '', domain)`. -/
def stripMailPrefix (d : Str) : Str :=
  if startsWith (str "mail.") d then d.drop 5
  else if startsWith (str "smtp.") d then d.drop 5
  else if startsWith (str "pop.") d then d.drop 4
  else if startsWith (str "imap.") d then d.drop 4
  else d

/-- Model of `EmailPreprocessor._extract_domain`. -/
def extractDomain (sender : Str) : Str :=
  let email_addr :=
    match findAngle sender with
    | some content => content
    | none => sender
  match afterAt email_addr with
  | some domain => stripMailPrefix (toLowerStr domain)
  | none => str "unknown"

def newsletterIndicators : List Str :=
  [str "newsletter", str "digest", str "weekly", str "monthly", str "daily",
   str "unsubscribe", str "subscription", str "mailing list",
   str "noreply", str "no-reply", str "donotreply"]

def notificationIndicators : List Str :=
  [str "notification", str "alert", str "reminder", str "confirmation",
   str "receipt", str "invoice", str "statement", str "report",
   str "update", str "status", str "activity", str "security"]

def promoIndicators : List Str :=
  [str "sale", str "discount", str "offer", str "deal", str "promotion",
   str "coupon", str "save", str "free", str "limited time",
   str "special", str "exclusive", str "buy now", str "shop"]

/-- Model of `EmailPreprocessor._is_newsletter`: keyword membership in
`f"{sender} {subject} {body}".lower()`. -/
def isNewsletter (sender subject body : Str) : Bool :=
  let text := toLowerStr (sender ++ (str " " ++ (subject ++ (str " " ++ body))))
  newsletterIndicators.any (fun ind => isSubstring ind text)

/-- Model of `EmailPreprocessor._is_notification`: keyword membership in
`f"{subject} {body}".lower()`. -/
def isNotification (subject body : Str) : Bool :=
  let text := toLowerStr (subject ++ (str " " ++ body))
  notificationIndicators.any (fun ind => isSubstring ind text)

/-- Model of `EmailPreprocessor._is_promotional`: keyword membership in
`f"{subject} {body}".lower()`. -/
def isPromotional (subject body : Str) : Bool :=
  let text := toLowerStr (subject ++ (str " " ++ body))
  promoIndicators.any (fun ind => isSubstring ind text)

/-- Raw email record handed to the preprocessor (database row fields that
`extract_features` reads via `.get`). -/
structure RawEmail where
  id : Option Nat
  gmail_id : Str
  subject : Str
  sender : Str
  body : Str
  date_received : Nat
  is_archived : Bool
deriving DecidableEq

/-- Feature dictionary produced by `EmailPreprocessor.extract_features`. -/
structure PEmail where
  id : Option Nat
  gmail_id : Str
  subject : Str
  body : Str
  sender : Str
  sender_domain : Str
  combined_text : Str
  tokens : List Str
  token_count : Nat
  subject_length : Nat
  body_length : Nat
  has_attachments : Bool
  is_newsletter : Bool
  is_notification : Bool
  is_promotional : Bool
deriving DecidableEq

/-- Model of `string.punctuation` (braces written as escapes). -/
def punctChars : Str := str "!\"#$%&'()*+,-./:;<=>?@[\\]^_`\x7b|\x7d~"

def isPunctChar (c : Char) : Bool := punctChars.contains c

/-- Model of `EmailPreprocessor._tokenize_and_filter`, parameterized by the external
NLTK pieces: `tok` is `word_tokenize`, `stem` the Porter stemmer, and
`stopWords` the loaded stop-word set.  Only the filtering logic is the
repository's own code; the NLTK fallback path (plain split on tokenizer
failure) is an exception path of the external tokenizer and is not modelled. -/
def tokenizeAndFilter (tok : Str → List Str) (stem : Str → Str)
    (stopWords : List Str) (text : Str) : List Str :=
  if text.isEmpty then []
  else
    (tok text).filterMap (fun token =>
      if token.length < 3 || stopWords.contains (toLowerStr token) ||
          token.all isPunctChar then none
      else some (stem (toLowerStr token)))

/-- Model of `EmailPreprocessor.extract_features`. -/
def extractFeatures (tok : Str → List Str) (stem : Str → Str)
    (stopWords : List Str) (email : RawEmail) : PEmail :=
  let subject := cleanText email.subject
  let body := cleanText email.body
  let sender := email.sender
  let sender_domain := extractDomain sender
  let combined := subject ++ (str " " ++ body)
  let tokens := tokenizeAndFilter tok stem stopWords combined
  { id := email.id
    gmail_id := email.gmail_id
    subject := subject
    body := body
    sender := sender
    sender_domain := sender_domain
    combined_text := List.intercalate (str " ") tokens
    tokens := tokens
    token_count := tokens.length
    subject_length := (splitWs subject).length
    body_length := (splitWs body).length
    has_attachments := isSubstring (str "attachment") (toLowerStr body)
    is_newsletter := isNewsletter sender subject body
    is_notification := isNotification subject body
    is_promotional := isPromotional subject body }

/-- Model of `EmailPreprocessor.preprocess_emails`: the per-email `try`/`except`
is modelled by a fallible extraction function; a failing email is skipped
(`continue`) and the batch goes on. -/
def preprocessEmails (extract : RawEmail → Except String PEmail) :
    List RawEmail → List PEmail
  | [] => []
  | e :: rest =>
    match extract e with
    | Except.ok f => f :: preprocessEmails extract rest
    | Except.error _ => preprocessEmails extract rest

/-- The spec's domain-extraction round trip:
`"Jane Doe <jane@mail.example.com>"` gives `example.com`. -/
theorem extractDomain_roundtrip :
    extractDomain (str "Jane Doe <jane@mail.example.com>") = str "example.com" := by decide

/-!
## Configuration (`config.py`)
-/

namespace Config

def DEFAULT_CLUSTERS : Nat := 3

def MAX_EMAILS : Nat := 200

end Config

/-!
## Vectorizer (`EmailVectorizer`)

The numerical work inside the `try` blocks of `fit_transform`/`transform`
(scikit-learn TF-IDF and standard scaling over floating point) is abstracted
as a fallible `core` function from the composite texts and the additional
structural-feature rows to the final matrix; everything around it is the
repository's own control flow.
-/

/-- Feature matrices (`np.ndarray`); `[]` models `np.array([])`. -/
abbrev Mat := List (List ℚ)

structure EmailVectorizer where
  is_fitted : Bool
deriving DecidableEq

/-- Model of `EmailVectorizer.__init__` sets `is_fitted = False`. -/
def EmailVectorizer.init : EmailVectorizer := { is_fitted := false }

/-- Model of `EmailVectorizer._combine_text_features`. -/
def combineTextFeatures (email : PEmail) : Str :=
  let subject := email.subject
  let body := if email.combined_text.isEmpty then email.body else email.combined_text
  let dom := email.sender_domain
  let base :=
    subject ++ (str " " ++ (subject ++ (str " " ++ (subject ++ (str " " ++
      (dom ++ (str " " ++ (dom ++ (str " " ++ body)))))))))
  let t1 := if email.is_newsletter then base ++ str " newsletter_type" else base
  let t2 := if email.is_notification then t1 ++ str " notification_type" else t1
  let t3 := if email.is_promotional then t2 ++ str " promotional_type" else t2
  trimWs t3

/-- Model of `l.endswith(suffix)`. -/
def endsWithStr (suffix l : Str) : Bool := startsWith suffix.reverse l.reverse

/-- Model of `EmailVectorizer._encode_sender_domain`. -/
def encodeSenderDomain (domain : Str) : ℚ :=
  if domain.isEmpty || domain == str "unknown" then 0
  else if [str "facebook", str "twitter", str "linkedin", str "instagram",
           str "whatsapp", str "telegram"].any (fun d => isSubstring d domain) then 1
  else if [str "amazon", str "ebay", str "shopify", str "etsy",
           str "alibaba", str "walmart"].any (fun d => isSubstring d domain) then 2
  else if [str "bank", str "paypal", str "stripe", str "visa",
           str "mastercard", str "finance"].any (fun d => isSubstring d domain) then 3
  else if [str "news", str "media", str "times", str "post",
           str "reuters", str "cnn", str "bbc"].any (fun d => isSubstring d domain) then 4
  else if [str "google", str "microsoft", str "apple", str "github",
           str "stackoverflow", str "tech"].any (fun d => isSubstring d domain) then 5
  else if endsWithStr (str ".gov") domain || endsWithStr (str ".org") domain then 6
  else if endsWithStr (str ".edu") domain then 7
  else 8

def boolToQ (b : Bool) : ℚ := if b then 1 else 0

/-- Model of `EmailVectorizer._extract_additional_features`: the eight structural
columns per email. -/
def extractAdditionalFeatures (processed_emails : List PEmail) : Mat :=
  processed_emails.map (fun email =>
    [(email.subject_length : ℚ), (email.body_length : ℚ), (email.token_count : ℚ),
     boolToQ email.has_attachments, boolToQ email.is_newsletter,
     boolToQ email.is_notification, boolToQ email.is_promotional,
     encodeSenderDomain email.sender_domain])

namespace EmailVectorizer

/-- Model of `EmailVectorizer.fit_transform`: collects composite texts and ids for all
emails, then runs the numeric core; on any internal error it returns the
empty matrix together with the already-collected ids (and `is_fitted` stays
as it was; it becomes true only on success). -/
def fitTransform (v : EmailVectorizer) (processed_emails : List PEmail)
    (core : List Str → Mat → Except String Mat) :
    EmailVectorizer × Mat × List Str :=
  if processed_emails.isEmpty then (v, [], [])
  else
    let texts := processed_emails.map combineTextFeatures
    let email_ids := processed_emails.map (fun e => e.gmail_id)
    match core texts (extractAdditionalFeatures processed_emails) with
    | Except.ok m => ({ v with is_fitted := true }, m, email_ids)
    | Except.error _ => (v, [], email_ids)

/-- Model of `EmailVectorizer.transform`: raises (`Except.error`) when called before a
successful fit; otherwise it mirrors `fit_transform`'s soft-failure policy. -/
def transform (v : EmailVectorizer) (processed_emails : List PEmail)
    (core : List Str → Mat → Except String Mat) :
    Except String (Mat × List Str) :=
  if !v.is_fitted then Except.error "Vectorizer must be fitted before transform"
  else if processed_emails.isEmpty then Except.ok ([], [])
  else
    let texts := processed_emails.map combineTextFeatures
    let email_ids := processed_emails.map (fun e => e.gmail_id)
    match core texts (extractAdditionalFeatures processed_emails) with
    | Except.ok m => Except.ok (m, email_ids)
    | Except.error _ => Except.ok ([], email_ids)

end EmailVectorizer

/-!
## Clusterer (`EmailClusterer`)

The K-means call `self.kmeans.fit_predict(feature_vectors)` is external
(scikit-learn); it is abstracted as a function `kmeansLabels` from the chosen
cluster count to the per-email label assignment.  Likewise
`vectorizer.get_top_features_for_cluster(cluster_vectors, top_n=5)` is
abstracted as `topFeatures`.  The silhouette-score computation is telemetry
only (never read by the cluster assembly) and is not modelled.
-/

structure Cluster where
  id : Nat
  label : Str
  description : Str
  email_count : Nat
  emails : List PEmail
  email_ids : List Str
deriving DecidableEq

/-- Decimal rendering of a count, as interpolated by the f-strings. -/
def natStr (n : Nat) : Str := (Nat.repr n).toList

/-- Common shape of every synthesized description:
`pre` + the literal member count + `" emails)"`. -/
def withCount (pre : Str) (total : Nat) : Str := pre ++ (natStr total ++ str " emails)")

/-- Model of `[xs[i] for i in range(len(xs)) if (labels == cid)[i]]` for parallel
`xs`/`labels` (the only way the clusterer calls it; a length mismatch would
raise in Python and be caught by the outer `try`). -/
def maskFilter (labels : List Nat) (cid : Nat) (xs : List α) : List α :=
  ((xs.zip labels).filter (fun p => p.2 == cid)).map Prod.fst

/-- Keys of a `collections.Counter` in insertion order (first occurrence). -/
def firstOccurrences : List Str → List Str
  | [] => []
  | x :: xs => x :: (firstOccurrences xs).filter (fun y => y != x)

/-- Model of `collections.Counter(l)` as an association list in insertion order. -/
def counterList (l : List Str) : List (Str × Nat) :=
  (firstOccurrences l).map (fun d => (d, l.count d))

/-- Stable insertion of `c` into a list sorted descending by `key`: `c` goes
before the first element whose key is not larger (so earlier elements win
ties). -/
def insDescBy (key : α → Nat) (c : α) : List α → List α
  | [] => [c]
  | d :: ds => if key c < key d then d :: insDescBy key c ds else c :: d :: ds

/-- Stable sort, descending by `key`: the semantics of Python's
`sort(key=..., reverse=True)` / `Counter.most_common`. -/
def sortDescBy (key : α → Nat) : List α → List α
  | [] => []
  | c :: cs => insDescBy key c (sortDescBy key cs)

/-- Model of `Counter.most_common(k)`: count-descending, insertion order on ties. -/
def mostCommonK (k : Nat) (counts : List (Str × Nat)) : List (Str × Nat) :=
  (sortDescBy Prod.snd counts).take k

/-- Model of `str.replace(pat, '')`, non-overlapping left-to-right (fuel-bounded by
the input length; every step consumes at least one character). -/
def replaceAllGo (pat : Str) : Nat → Str → Str
  | 0, l => l
  | _ + 1, [] => []
  | fuel + 1, c :: rest =>
    if startsWith pat (c :: rest) then replaceAllGo pat fuel ((c :: rest).drop pat.length)
    else c :: replaceAllGo pat fuel rest

def replaceAll (pat : Str) (l : Str) : Str := replaceAllGo pat l.length l

/-- Model of `str.title()`: uppercase a letter that follows a non-cased character,
lowercase the rest. -/
def titleCaseGo (prevCased : Bool) : Str → Str
  | [] => []
  | c :: rest =>
    if c.isAlpha then
      (if prevCased then c.toLower else c.toUpper) :: titleCaseGo true rest
    else c :: titleCaseGo false rest

def titleCase (l : Str) : Str := titleCaseGo false l

/-- Model of `EmailClusterer._domain_to_label`. -/
def domainToLabel (domain0 : Str) : Str :=
  let domain := toLowerStr domain0
  if [str "facebook", str "twitter", str "linkedin",
      str "instagram"].any (fun s => isSubstring s domain) then str "Social Media"
  else if [str "amazon", str "ebay", str "shopify", str "etsy",
           str "shop"].any (fun s => isSubstring s domain) then str "Shopping & E-commerce"
  else if [str "bank", str "paypal", str "stripe", str "finance",
           str "credit"].any (fun s => isSubstring s domain) then str "Financial Services"
  else if [str "news", str "times", str "post", str "reuters", str "cnn",
           str "bbc"].any (fun s => isSubstring s domain) then str "News & Media"
  else if [str "github", str "stackoverflow", str "google",
           str "microsoft"].any (fun s => isSubstring s domain) then str "Technology & Development"
  else if [str "slack", str "teams", str "zoom", str "office",
           str "business"].any (fun s => isSubstring s domain) then str "Work & Business"
  else
    let clean_domain := replaceAll (str ".net") (replaceAll (str ".org") (replaceAll (str ".com") domain))
    titleCase clean_domain ++ str " Emails"

/-- Keyword-to-category table of `EmailClusterer._features_to_label`
(dict insertion order). -/
def featureCategories : List (Str × Str) :=
  [(str "work", str "Work & Business"), (str "business", str "Work & Business"),
   (str "meeting", str "Work & Business"), (str "project", str "Work & Business"),
   (str "team", str "Work & Business"), (str "newsletter", str "Newsletters"),
   (str "news", str "News & Updates"), (str "update", str "News & Updates"),
   (str "notification", str "Notifications"), (str "alert", str "Notifications"),
   (str "sale", str "Shopping & Deals"), (str "deal", str "Shopping & Deals"),
   (str "offer", str "Shopping & Deals"), (str "discount", str "Shopping & Deals"),
   (str "order", str "Shopping & Orders"), (str "receipt", str "Receipts & Invoices"),
   (str "invoice", str "Receipts & Invoices"), (str "payment", str "Financial"),
   (str "account", str "Account Management"), (str "security", str "Security & Privacy"),
   (str "social", str "Social Media"), (str "event", str "Events & Calendar")]

/-- Model of `EmailClusterer._features_to_label`. -/
def featuresToLabel (features : List Str) : Str :=
  match features.findSome? (fun feature =>
      (featureCategories.find? (fun p => isSubstring p.1 (toLowerStr feature))).map Prod.snd) with
  | some category => category
  | none =>
    match features with
    | f :: _ => titleCase f ++ str " Related"
    | [] => str "Mixed Content"

/-- Word-to-category table of `EmailClusterer._words_to_label`. -/
def wordCategories : List (Str × Str) :=
  [(str "order", str "Orders & Shopping"), (str "receipt", str "Receipts"),
   (str "invoice", str "Invoices"), (str "payment", str "Payments"),
   (str "account", str "Account Updates"), (str "security", str "Security Alerts"),
   (str "newsletter", str "Newsletters"), (str "update", str "Updates"),
   (str "notification", str "Notifications"), (str "meeting", str "Meetings"),
   (str "event", str "Events"), (str "reminder", str "Reminders"),
   (str "confirmation", str "Confirmations")]

/-- Model of `EmailClusterer._words_to_label`. -/
def wordsToLabel (words : List Str) : Str :=
  match words.findSome? (fun word =>
      (wordCategories.find? (fun p => p.1 == toLowerStr word)).map Prod.snd) with
  | some category => category
  | none => List.intercalate (str " & ") ((words.take 2).map titleCase)

/-- Model of `re.findall(r'\b[a-zA-Z]{3,}\b', s)`: maximal alphabetic runs of length
at least 3 whose neighbours are not word characters.  The scanner keeps the
run being collected (reversed) in `buf`; a run preceded by a word character
is skipped wholly (no boundary can hold inside it). -/
def alphaWordsGo (collecting : Bool) (prevW : Bool) (buf : Str) : Str → List Str
  | [] => if collecting && decide (3 ≤ buf.length) then [buf.reverse] else []
  | c :: rest =>
    if collecting then
      if c.isAlpha then alphaWordsGo true true (c :: buf) rest
      else
        (if !isWordChar c && decide (3 ≤ buf.length) then [buf.reverse] else []) ++
          alphaWordsGo false (isWordChar c) [] rest
    else
      if c.isAlpha && !prevW then alphaWordsGo true true [c] rest
      else alphaWordsGo false (isWordChar c) [] rest

def findAlphaWords (l : Str) : List Str := alphaWordsGo false false [] l

/-- Size fallback at the end of `_generate_content_based_label`. -/
def sizeFallback (total : Nat) : Str × Str :=
  if total > 20 then
    (str "Large Email Group", withCount (str "Large group of related emails (") total)
  else if total > 10 then
    (str "Medium Email Group", withCount (str "Medium group of related emails (") total)
  else
    (str "Small Email Group", withCount (str "Small group of related emails (") total)

/-- Subject-pattern step of `_generate_content_based_label`. -/
def subjectWordsLabel (subjects : List Str) (total : Nat) : Str × Str :=
  let subject_words := ((subjects.map (fun s => findAlphaWords (toLowerStr s))).flatten)
  if !subject_words.isEmpty then
    let word_counts := counterList subject_words
    let common_words := ((mostCommonK 3 word_counts).filter (fun p =>
        decide (1 < p.2) &&
          !([str "the", str "and", str "for", str "you", str "your"].contains p.1))).map Prod.fst
    if !common_words.isEmpty then
      (wordsToLabel common_words,
       withCount (str "Emails containing " ++
         (List.intercalate (str ", ") (common_words.take 2) ++ str " (")) total)
    else sizeFallback total
  else sizeFallback total

/-- Model of `EmailClusterer._generate_content_based_label`.  The Python float
comparison `count / total > 0.5` is the exact comparison `2 * count > total`
(halves are exactly representable). -/
def generateContentBasedLabel (cluster_emails : List PEmail) (sender_domains : List Str)
    (subjects : List Str) (topFeatures : Mat → List Str)
    (cluster_vectors : Mat) : Str × Str :=
  let total := cluster_emails.length
  let most_common_domains := mostCommonK 3 (counterList sender_domains)
  -- hasattr(vectorizer, 'get_top_features_for_cluster') holds for the real
  -- vectorizer, so the TF-IDF step is always attempted on fall-through
  let fromTfidf : Str × Str :=
    let top_features := topFeatures cluster_vectors
    if !top_features.isEmpty then
      (featuresToLabel top_features,
       withCount (str "Emails about " ++
         (List.intercalate (str ", ") (top_features.take 3) ++ str " (")) total)
    else subjectWordsLabel subjects total
  match most_common_domains with
  | (dominant_domain, cnt) :: _ =>
    if 2 * cnt > total then
      if dominant_domain != str "unknown" then
        (domainToLabel dominant_domain,
         withCount (str "Emails from " ++ (dominant_domain ++ str " and related services (")) total)
      else fromTfidf
    else fromTfidf
  | [] => fromTfidf

/-- Model of `EmailClusterer._generate_cluster_label_and_description`.  The Python
float comparison `count / total_emails > 0.6` coincides with the exact
rational comparison `5 * count > 3 * total` for batch-sized counts (the
double closest to 0.6 lies below 3/5, and quotients of small integers are
computed correctly rounded).  The `senders` list built by the source is
never read and is omitted. -/
def generateClusterLabelAndDescription (cluster_emails : List PEmail)
    (topFeatures : Mat → List Str) (cluster_vectors : Mat) : Str × Str :=
  let subjects := cluster_emails.map (fun e => e.subject)
  let sender_domains := cluster_emails.map (fun e => e.sender_domain)
  let newsletter_count := cluster_emails.countP (fun e => e.is_newsletter)
  let notification_count := cluster_emails.countP (fun e => e.is_notification)
  let promotional_count := cluster_emails.countP (fun e => e.is_promotional)
  let total := cluster_emails.length
  if 5 * newsletter_count > 3 * total then
    (str "Newsletters & Subscriptions",
     withCount (str "Newsletter and subscription emails (") total)
  else if 5 * notification_count > 3 * total then
    (str "Notifications & Alerts",
     withCount (str "System notifications and alerts (") total)
  else if 5 * promotional_count > 3 * total then
    (str "Promotions & Marketing",
     withCount (str "Promotional and marketing emails (") total)
  else generateContentBasedLabel cluster_emails sender_domains subjects topFeatures cluster_vectors

/-- Model of `EmailClusterer._create_single_cluster`. -/
def createSingleCluster (processed_emails : List PEmail) (email_ids : List Str) : List Cluster :=
  [{ id := 1, label := str "All Emails", description := str "All your recent emails",
     email_count := processed_emails.length, emails := processed_emails,
     email_ids := email_ids }]

/-- The per-cluster groups built by `_generate_cluster_info` before sorting,
in cluster-id order (the order of the underlying algorithm's label values);
empty groups are dropped (`continue`). -/
def preSortGroups (k : Nat) (labels : List Nat) (processed : List PEmail)
    (ids : List Str) (vectors : Mat) (topFeatures : Mat → List Str) : List Cluster :=
  (List.range k).filterMap (fun cluster_id =>
    let cluster_emails := maskFilter labels cluster_id processed
    let cluster_email_ids := maskFilter labels cluster_id ids
    let cluster_vectors := maskFilter labels cluster_id vectors
    if cluster_emails.isEmpty then none
    else
      let ld := generateClusterLabelAndDescription cluster_emails topFeatures cluster_vectors
      some { id := cluster_id + 1, label := ld.1, description := ld.2,
             email_count := cluster_emails.length, emails := cluster_emails,
             email_ids := cluster_email_ids })

/-- Reassign ids `i+1, i+2, ...` after sorting. -/
def reassignIds : Nat → List Cluster → List Cluster
  | _, [] => []
  | i, c :: cs => { c with id := i + 1 } :: reassignIds (i + 1) cs

/-- Model of `EmailClusterer._generate_cluster_info`: group, drop empties, sort by
size descending (stable, like Python's `list.sort`), reassign 1-based ids. -/
def generateClusterInfo (k : Nat) (labels : List Nat) (processed : List PEmail)
    (ids : List Str) (vectors : Mat) (topFeatures : Mat → List Str) : List Cluster :=
  reassignIds 0 (sortDescBy (fun c => c.email_count)
    (preSortGroups k labels processed ids vectors topFeatures))

/-- Model of `EmailClusterer.__init__`: `self.n_clusters = n_clusters or
Config.DEFAULT_CLUSTERS` (both `None` and `0` are falsy). -/
def initNClusters (n_clusters : Option Nat) : Nat :=
  match n_clusters with
  | none => Config.DEFAULT_CLUSTERS
  | some k => if k == 0 then Config.DEFAULT_CLUSTERS else k

/-- Model of `EmailClusterer._determine_optimal_clusters` (adaptive count by batch
size; `//` is integer division). -/
def determineOptimalClusters (n_emails : Nat) : Nat :=
  if n_emails < 10 then 2
  else if n_emails < 30 then 3
  else if n_emails < 100 then min 4 (n_emails / 10)
  else min 5 (n_emails / 20)

/-- Model of `np.ndarray.size`: total number of elements. -/
def matSize (m : Mat) : Nat := (m.map List.length).sum

/-- The cluster count actually used by `cluster_emails` (source lines 27-33):
after `__init__`, `self.n_clusters` is never `None`, so the branch calling
`_determine_optimal_clusters` is unreachable and only the clamp
`min(self.n_clusters, n_emails)` applies. -/
def clusterCountUsed (n_clusters_arg : Option Nat) (n_emails : Nat) : Nat :=
  min (initNClusters n_clusters_arg) n_emails

/-- Model of `EmailClusterer.cluster_emails`.  `kmeansLabels k` stands for
`KMeans(n_clusters=k, random_state=42, n_init=10, max_iter=300)
.fit_predict(feature_vectors)` (an assignment of one label below `k` per
row); `topFeatures` stands for the vectorizer handle's
`get_top_features_for_cluster(·, top_n=5)`.  The `except` fallback to a
single cluster concerns exceptions of the external numeric code, which the
shallow embedding treats as total. -/
def clusterEmails (n_clusters_arg : Option Nat) (feature_vectors : Mat)
    (email_ids : List Str) (processed_emails : List PEmail)
    (kmeansLabels : Nat → List Nat) (topFeatures : Mat → List Str) : List Cluster :=
  if matSize feature_vectors = 0 ∨ email_ids = [] then []
  else
    let k := clusterCountUsed n_clusters_arg feature_vectors.length
    if k < 2 then createSingleCluster processed_emails email_ids
    else generateClusterInfo k (kmeansLabels k) processed_emails email_ids
      feature_vectors topFeatures

def eNL (n : Nat) : PEmail :=
  { id := none, gmail_id := natStr n, subject := str "weekly digest",
    body := str "unsubscribe here", sender := str "a <x@news.com>",
    sender_domain := str "news.com", combined_text := str "digest",
    tokens := [str "digest"], token_count := 1, subject_length := 2,
    body_length := 2, has_attachments := false, is_newsletter := true,
    is_notification := false, is_promotional := false }

def ePlain (n : Nat) : PEmail :=
  { id := none, gmail_id := natStr n, subject := str "hello",
    body := str "world", sender := str "b <y@a.com>",
    sender_domain := str "a.com", combined_text := str "hello",
    tokens := [str "hello"], token_count := 1, subject_length := 1,
    body_length := 1, has_attachments := false, is_newsletter := false,
    is_notification := false, is_promotional := false }

/-- End-to-end sanity check of the clusterer on a four-email batch: grouping,
the label cascade, count-bearing descriptions, size-descending order and
reassigned ids. -/
theorem clusterEmails_sample :
    clusterEmails none [[1],[2],[3],[4]] [str "g1", str "g2", str "g3", str "g4"]
      [eNL 1, eNL 2, ePlain 3, ePlain 4] (fun _ => [0, 0, 1, 2]) (fun _ => []) =
    [{ id := 1, label := str "Newsletters & Subscriptions",
       description := str "Newsletter and subscription emails (2 emails)",
       email_count := 2, emails := [eNL 1, eNL 2], email_ids := [str "g1", str "g2"] },
     { id := 2, label := str "A Emails",
       description := str "Emails from a.com and related services (1 emails)",
       email_count := 1, emails := [ePlain 3], email_ids := [str "g3"] },
     { id := 3, label := str "A Emails",
       description := str "Emails from a.com and related services (1 emails)",
       email_count := 1, emails := [ePlain 4], email_ids := [str "g4"] }] := by decide

/-!
## Helper lemmas about the sort, id reassignment and grouping
-/

theorem insDescBy_perm (key : α → Nat) (c : α) (l : List α) :
    List.Perm (insDescBy key c l) (c :: l) := by
  induction l with
  | nil => simp [insDescBy]
  | cons d ds ih =>
    by_cases h : key c < key d
    · simp only [insDescBy, if_pos h]
      exact (ih.cons d).trans (List.Perm.swap c d ds)
    · simp [insDescBy, if_neg h]

theorem sortDescBy_perm (key : α → Nat) (l : List α) :
    List.Perm (sortDescBy key l) l := by
  induction l with
  | nil => simp [sortDescBy]
  | cons c cs ih => exact (insDescBy_perm key c _).trans (ih.cons c)

theorem insDescBy_sorted (key : α → Nat) (c : α) (l : List α)
    (h : l.Pairwise (fun a b => key b ≤ key a)) :
    (insDescBy key c l).Pairwise (fun a b => key b ≤ key a) := by
  induction l with
  | nil => simp [insDescBy]
  | cons d ds ih =>
    rcases List.pairwise_cons.mp h with ⟨hd, hds⟩
    by_cases hcd : key c < key d
    · simp only [insDescBy, if_pos hcd]
      apply List.pairwise_cons.mpr
      refine ⟨?_, ih hds⟩
      intro x hx
      rcases List.mem_cons.mp ((insDescBy_perm key c ds).mem_iff.mp hx) with rfl | hxds
      · omega
      · exact hd x hxds
    · simp only [insDescBy, if_neg hcd]
      apply List.pairwise_cons.mpr
      refine ⟨?_, h⟩
      intro x hx
      rcases List.mem_cons.mp hx with rfl | hxds
      · omega
      · have := hd x hxds
        omega

theorem sortDescBy_sorted (key : α → Nat) (l : List α) :
    (sortDescBy key l).Pairwise (fun a b => key b ≤ key a) := by
  induction l with
  | nil => simp [sortDescBy]
  | cons c cs ih => exact insDescBy_sorted key c _ ih

theorem insDescBy_filter (key : α → Nat) (c : α) (l : List α) (n : Nat) :
    (insDescBy key c l).filter (fun a => key a == n) =
      if key c == n then c :: l.filter (fun a => key a == n)
      else l.filter (fun a => key a == n) := by
  induction l with
  | nil => simp [insDescBy, List.filter_cons]
  | cons d ds ih =>
    simp only [insDescBy]
    by_cases hcd : key c < key d
    · rw [if_pos hcd, List.filter_cons]
      by_cases hdn : (key d == n) = true
      · have hd' : key d = n := by simpa using hdn
        have hcn : (key c == n) = false := by
          simp only [beq_eq_false_iff_ne, ne_eq]
          omega
        rw [ih]
        simp [hdn, hcn, List.filter_cons]
      · rw [ih]
        by_cases hcn : (key c == n) = true
        · simp [hdn, hcn, List.filter_cons]
        · simp [hdn, hcn]
    · rw [if_neg hcd]
      by_cases hcn : (key c == n) = true
      · simp [hcn, List.filter_cons]
      · simp [hcn, List.filter_cons]

theorem sortDescBy_filter (key : α → Nat) (l : List α) (n : Nat) :
    (sortDescBy key l).filter (fun a => key a == n) = l.filter (fun a => key a == n) := by
  induction l with
  | nil => rfl
  | cons c cs ih =>
    simp only [sortDescBy, insDescBy_filter, ih, List.filter_cons]

theorem reassignIds_map_emails (i : Nat) (cs : List Cluster) :
    (reassignIds i cs).map (fun c => c.emails) = cs.map (fun c => c.emails) := by
  induction cs generalizing i with
  | nil => rfl
  | cons c cs ih => simp [reassignIds, ih]

theorem reassignIds_map_count (i : Nat) (cs : List Cluster) :
    (reassignIds i cs).map (fun c => c.email_count) = cs.map (fun c => c.email_count) := by
  induction cs generalizing i with
  | nil => rfl
  | cons c cs ih => simp [reassignIds, ih]

theorem reassignIds_length (i : Nat) (cs : List Cluster) :
    (reassignIds i cs).length = cs.length := by
  induction cs generalizing i with
  | nil => rfl
  | cons c cs ih => simp [reassignIds, ih]

theorem reassignIds_map_id (i : Nat) (cs : List Cluster) :
    (reassignIds i cs).map (fun c => c.id) = List.range' (i + 1) cs.length := by
  induction cs generalizing i with
  | nil => rfl
  | cons c cs ih =>
    simp only [reassignIds, List.map_cons, List.length_cons, List.range'_succ, ih]

theorem reassignIds_filter_map_emails (i : Nat) (cs : List Cluster) (n : Nat) :
    ((reassignIds i cs).filter (fun c => c.email_count == n)).map (fun c => c.emails) =
      (cs.filter (fun c => c.email_count == n)).map (fun c => c.emails) := by
  induction cs generalizing i with
  | nil => rfl
  | cons c cs ih =>
    by_cases h : (c.email_count == n) = true <;>
      simp [reassignIds, List.filter_cons, h, ih]

theorem reassignIds_mem (c' : Cluster) (i : Nat) (cs : List Cluster)
    (h : c' ∈ reassignIds i cs) :
    ∃ c ∈ cs, c'.label = c.label ∧ c'.description = c.description ∧
      c'.emails = c.emails ∧ c'.email_count = c.email_count := by
  induction cs generalizing i with
  | nil => simp [reassignIds] at h
  | cons d ds ih =>
    simp only [reassignIds, List.mem_cons] at h
    rcases h with rfl | h
    · exact ⟨d, List.mem_cons_self d ds, rfl, rfl, rfl, rfl⟩
    · obtain ⟨c, hc, hh⟩ := ih _ h
      exact ⟨c, List.mem_cons_of_mem _ hc, hh⟩

theorem flatten_of_all_nil (L : List (List α)) (h : ∀ l ∈ L, l = []) : L.flatten = [] :=
  List.flatten_eq_nil_iff.mpr h

theorem flatten_filter_nonempty (L : List (List α)) :
    (L.filter (fun l => !l.isEmpty)).flatten = L.flatten := by
  induction L with
  | nil => rfl
  | cons l ls ih =>
    by_cases h : l.isEmpty
    · have : l = [] := by simpa [List.isEmpty_iff] using h
      subst this
      simp [List.filter_cons, ih]
    · simp [List.filter_cons, h, ih]

theorem flatten_cons_group (x : PEmail) (c0 : Nat) (rest : List (PEmail × Nat))
    (cs : List Nat) (h1 : cs.count c0 = 1) :
    List.Perm
      ((cs.map (fun cid =>
        (((x, c0) :: rest).filter (fun p => p.2 == cid)).map Prod.fst)).flatten)
      (x :: (cs.map (fun cid =>
        ((rest.filter (fun p => p.2 == cid)).map Prod.fst))).flatten) := by
  induction cs with
  | nil => simp at h1
  | cons c cs ih =>
    rw [List.count_cons] at h1
    by_cases hc : c = c0
    · subst hc
      have h0 : cs.count c = 0 := by simpa using h1
      have hnot : c ∉ cs := List.count_eq_zero.mp h0
      have hmapeq :
          cs.map (fun cid => (((x, c) :: rest).filter (fun p => p.2 == cid)).map Prod.fst) =
          cs.map (fun cid => ((rest.filter (fun p => p.2 == cid)).map Prod.fst)) := by
        apply List.map_congr_left
        intro a ha
        have hne : (c == a) = false := by
          simp only [beq_eq_false_iff_ne, ne_eq]
          intro hcon
          exact hnot (hcon ▸ ha)
        simp [List.filter_cons, hne]
      have hF : (((x, c) :: rest).filter (fun p => p.2 == c)).map Prod.fst
          = x :: (rest.filter (fun p => p.2 == c)).map Prod.fst := by
        simp [List.filter_cons]
      rw [List.map_cons, List.flatten_cons, hF, hmapeq, List.map_cons, List.flatten_cons,
        List.cons_append]
    · have h1' : cs.count c0 = 1 := by simpa [hc] using h1
      have hne : (c0 == c) = false := by
        simp only [beq_eq_false_iff_ne, ne_eq]
        exact fun h => hc h.symm
      have hF : (((x, c0) :: rest).filter (fun p => p.2 == c)).map Prod.fst
          = (rest.filter (fun p => p.2 == c)).map Prod.fst := by
        simp [List.filter_cons, hne]
      rw [List.map_cons, List.flatten_cons, hF, List.map_cons, List.flatten_cons]
      exact ((ih h1').append_left _).trans List.perm_middle

theorem flatten_groups_perm (k : Nat) (pairs : List (PEmail × Nat))
    (hk : ∀ p ∈ pairs, p.2 < k) :
    List.Perm
      (((List.range k).map (fun cid =>
        (pairs.filter (fun p => p.2 == cid)).map Prod.fst)).flatten)
      (pairs.map Prod.fst) := by
  induction pairs with
  | nil =>
    rw [flatten_of_all_nil]
    · simp
    · intro l hl
      simp only [List.mem_map] at hl
      obtain ⟨cid, _, rfl⟩ := hl
      simp
  | cons p rest ih =>
    obtain ⟨x, c0⟩ := p
    have hc0 : c0 < k := hk (x, c0) (List.mem_cons_self _ _)
    have hrest : ∀ q ∈ rest, q.2 < k := fun q hq => hk q (List.mem_cons_of_mem _ hq)
    have h1 : (List.range k).count c0 = 1 :=
      List.count_eq_one_of_mem (List.nodup_range k) (List.mem_range.mpr hc0)
    exact (flatten_cons_group x c0 rest (List.range k) h1).trans ((ih hrest).cons x)

theorem filterMap_groups_map_emails (cs : List Nat) (g : Nat → List PEmail)
    (F : Nat → Cluster) (hF : ∀ cid, (F cid).emails = g cid) :
    ((cs.filterMap (fun cid => if (g cid).isEmpty then none else some (F cid))).map
        (fun c => c.emails)) =
      (cs.map g).filter (fun l => !l.isEmpty) := by
  induction cs with
  | nil => rfl
  | cons c cs ih =>
    by_cases hc : (g c).isEmpty
    · rw [List.filterMap_cons_none (by simp [hc]), ih, List.map_cons, List.filter_cons]
      simp [hc]
    · have hsome : (fun cid => if (g cid).isEmpty then none else some (F cid)) c
          = some (F c) := by
        show (if (g c).isEmpty then none else some (F c)) = some (F c)
        rw [if_neg hc]
      rw [@List.filterMap_cons_some _ _
          (fun cid => if (g cid).isEmpty then none else some (F cid)) c cs (F c) hsome,
        List.map_cons, List.map_cons, List.filter_cons, ih, hF]
      simp [hc]

theorem preSortGroups_map_emails (k : Nat) (labels : List Nat) (processed : List PEmail)
    (ids : List Str) (vectors : Mat) (topFeatures : Mat → List Str) :
    (preSortGroups k labels processed ids vectors topFeatures).map (fun c => c.emails) =
      ((List.range k).map (fun cid => maskFilter labels cid processed)).filter
        (fun l => !l.isEmpty) :=
  filterMap_groups_map_emails (List.range k)
    (fun cid => maskFilter labels cid processed)
    (fun cid =>
      { id := cid + 1
        label := (generateClusterLabelAndDescription (maskFilter labels cid processed)
          topFeatures (maskFilter labels cid vectors)).1
        description := (generateClusterLabelAndDescription (maskFilter labels cid processed)
          topFeatures (maskFilter labels cid vectors)).2
        email_count := (maskFilter labels cid processed).length
        emails := maskFilter labels cid processed
        email_ids := maskFilter labels cid ids })
    (fun _ => rfl)

/-!
## Claim theorems
-/

/-- C1: for every non-empty input batch (feature vectors, ids, processed
emails) given to `cluster_emails`, every input email appears in the `emails`
sequence of exactly one returned cluster — the concatenation of the returned
`emails` sequences is a permutation of the input — and for the empty input
batch (the source's guard: no vector data or no ids) the returned list is
empty.  `hlen` and `hrange` state that the K-means assignment returns one
label below the cluster count per input email, which `fit_predict`
guarantees. -/
theorem C1_cluster_partition (n_clusters_arg : Option Nat) (feature_vectors : Mat)
    (email_ids : List Str) (processed_emails : List PEmail)
    (kmeansLabels : Nat → List Nat) (topFeatures : Mat → List Str)
    (hlen : (kmeansLabels (clusterCountUsed n_clusters_arg feature_vectors.length)).length
      = processed_emails.length)
    (hrange : ∀ l ∈ kmeansLabels (clusterCountUsed n_clusters_arg feature_vectors.length),
      l < clusterCountUsed n_clusters_arg feature_vectors.length) :
    (¬ (matSize feature_vectors = 0 ∨ email_ids = []) →
      List.Perm
        (((clusterEmails n_clusters_arg feature_vectors email_ids processed_emails
            kmeansLabels topFeatures).map (fun c => c.emails)).flatten)
        processed_emails)
    ∧ ((matSize feature_vectors = 0 ∨ email_ids = []) →
      clusterEmails n_clusters_arg feature_vectors email_ids processed_emails
        kmeansLabels topFeatures = []) := by
  constructor
  · intro h
    by_cases hk : clusterCountUsed n_clusters_arg feature_vectors.length < 2
    · simp only [clusterEmails, if_neg h, if_pos hk, createSingleCluster]
      simp
    · simp only [clusterEmails, if_neg h, if_neg hk, generateClusterInfo]
      rw [reassignIds_map_emails]
      refine (List.Perm.flatten ((sortDescBy_perm _ _).map _)).trans ?_
      rw [preSortGroups_map_emails, flatten_filter_nonempty]
      have hzip : ∀ p ∈ processed_emails.zip
          (kmeansLabels (clusterCountUsed n_clusters_arg feature_vectors.length)),
          p.2 < clusterCountUsed n_clusters_arg feature_vectors.length :=
        fun p hp => hrange p.2 (List.of_mem_zip hp).2
      have hperm := flatten_groups_perm
        (clusterCountUsed n_clusters_arg feature_vectors.length)
        (processed_emails.zip
          (kmeansLabels (clusterCountUsed n_clusters_arg feature_vectors.length)))
        hzip
      rw [List.map_fst_zip _ _ (le_of_eq hlen.symm)] at hperm
      exact hperm
  · intro h
    simp only [clusterEmails, if_pos h]

/-- Witness for C1: a concrete four-email batch, labels `[0, 1, 2, 0]`. -/
theorem C1_cluster_partition_witness :
    List.Perm
      (((clusterEmails none [[1], [2], [3], [4]]
          [str "g1", str "g2", str "g3", str "g4"]
          [eNL 1, eNL 2, ePlain 3, ePlain 4]
          (fun _ => [0, 1, 2, 0]) (fun _ => [])).map (fun c => c.emails)).flatten)
      [eNL 1, eNL 2, ePlain 3, ePlain 4] :=
  (C1_cluster_partition none [[1], [2], [3], [4]]
    [str "g1", str "g2", str "g3", str "g4"]
    [eNL 1, eNL 2, ePlain 3, ePlain 4]
    (fun _ => [0, 1, 2, 0]) (fun _ => [])
    (by decide) (by decide)).1 (by decide)

/-- C2 (code bug): with no pinned cluster count, `cluster_emails` uses
`DEFAULT_CLUSTERS = 3` clamped to the batch size — never the adaptive choice
of `_determine_optimal_clusters` — because `__init__` replaces `None` by
`Config.DEFAULT_CLUSTERS`, making the `if self.n_clusters is None` branch
unreachable.  At a batch of 50 emails the claim's adaptive rule gives
`min(4, 50 // 10) = 4`, but the code uses 3. -/
theorem C2_default_not_adaptive :
    clusterCountUsed none 50 = 3 ∧ determineOptimalClusters 50 = 4 ∧
    initNClusters none = Config.DEFAULT_CLUSTERS ∧
    (∀ n : Nat, clusterCountUsed none n = min 3 n) :=
  ⟨rfl, rfl, rfl, fun _ => rfl⟩

/-- C3: the returned cluster list is sorted by `email_count` descending, its
`id` fields are exactly `1, 2, 3, …` in that order, and — when the K-means
branch runs — ties keep the relative order of the pre-sort groups, which are
in the order of the underlying algorithm's label values. -/
theorem C3_sorted_ids_ties (n_clusters_arg : Option Nat) (feature_vectors : Mat)
    (email_ids : List Str) (processed_emails : List PEmail)
    (kmeansLabels : Nat → List Nat) (topFeatures : Mat → List Str) :
    ((clusterEmails n_clusters_arg feature_vectors email_ids processed_emails
        kmeansLabels topFeatures).map (fun c => c.email_count)).Pairwise
      (fun a b => b ≤ a)
    ∧ (clusterEmails n_clusters_arg feature_vectors email_ids processed_emails
        kmeansLabels topFeatures).map (fun c => c.id) =
      List.range' 1 (clusterEmails n_clusters_arg feature_vectors email_ids
        processed_emails kmeansLabels topFeatures).length
    ∧ (¬ (matSize feature_vectors = 0 ∨ email_ids = []) →
       ¬ (clusterCountUsed n_clusters_arg feature_vectors.length < 2) →
       ∀ n : Nat,
        ((clusterEmails n_clusters_arg feature_vectors email_ids processed_emails
            kmeansLabels topFeatures).filter
          (fun c => c.email_count == n)).map (fun c => c.emails) =
        ((preSortGroups (clusterCountUsed n_clusters_arg feature_vectors.length)
            (kmeansLabels (clusterCountUsed n_clusters_arg feature_vectors.length))
            processed_emails email_ids feature_vectors topFeatures).filter
          (fun c => c.email_count == n)).map (fun c => c.emails)) := by
  refine ⟨?_, ?_, ?_⟩
  · by_cases h : matSize feature_vectors = 0 ∨ email_ids = []
    · simp [clusterEmails, h]
    · by_cases hk : clusterCountUsed n_clusters_arg feature_vectors.length < 2
      · simp [clusterEmails, h, hk, createSingleCluster]
      · simp only [clusterEmails, if_neg h, if_neg hk, generateClusterInfo]
        rw [reassignIds_map_count, List.pairwise_map]
        exact sortDescBy_sorted _ _
  · by_cases h : matSize feature_vectors = 0 ∨ email_ids = []
    · simp [clusterEmails, h]
    · by_cases hk : clusterCountUsed n_clusters_arg feature_vectors.length < 2
      · simp [clusterEmails, h, hk, createSingleCluster, List.range']
      · simp only [clusterEmails, if_neg h, if_neg hk, generateClusterInfo]
        rw [reassignIds_map_id, reassignIds_length]
  · intro h hk n
    simp only [clusterEmails, if_neg h, if_neg hk, generateClusterInfo]
    rw [reassignIds_filter_map_emails, sortDescBy_filter]

/-- Witness for C3 at the concrete four-email batch, ties checked at size 1. -/
theorem C3_sorted_ids_ties_witness :
    ((clusterEmails none [[1], [2], [3], [4]]
        [str "g1", str "g2", str "g3", str "g4"]
        [eNL 1, eNL 2, ePlain 3, ePlain 4]
        (fun _ => [0, 1, 2, 0]) (fun _ => [])).map (fun c => c.email_count)).Pairwise
      (fun a b => b ≤ a)
    ∧ (clusterEmails none [[1], [2], [3], [4]]
        [str "g1", str "g2", str "g3", str "g4"]
        [eNL 1, eNL 2, ePlain 3, ePlain 4]
        (fun _ => [0, 1, 2, 0]) (fun _ => [])).map (fun c => c.id) =
      List.range' 1 (clusterEmails none [[1], [2], [3], [4]]
        [str "g1", str "g2", str "g3", str "g4"]
        [eNL 1, eNL 2, ePlain 3, ePlain 4]
        (fun _ => [0, 1, 2, 0]) (fun _ => [])).length
    ∧ ((clusterEmails none [[1], [2], [3], [4]]
        [str "g1", str "g2", str "g3", str "g4"]
        [eNL 1, eNL 2, ePlain 3, ePlain 4]
        (fun _ => [0, 1, 2, 0]) (fun _ => [])).filter
          (fun c => c.email_count == 1)).map (fun c => c.emails) =
      ((preSortGroups (clusterCountUsed none ([[1], [2], [3], [4]] : Mat).length)
          ((fun _ => [0, 1, 2, 0]) (clusterCountUsed none ([[1], [2], [3], [4]] : Mat).length))
          [eNL 1, eNL 2, ePlain 3, ePlain 4]
          [str "g1", str "g2", str "g3", str "g4"]
          [[1], [2], [3], [4]] (fun _ => [])).filter
        (fun c => c.email_count == 1)).map (fun c => c.emails) :=
  ⟨(C3_sorted_ids_ties none [[1], [2], [3], [4]]
      [str "g1", str "g2", str "g3", str "g4"]
      [eNL 1, eNL 2, ePlain 3, ePlain 4]
      (fun _ => [0, 1, 2, 0]) (fun _ => [])).1,
   (C3_sorted_ids_ties none [[1], [2], [3], [4]]
      [str "g1", str "g2", str "g3", str "g4"]
      [eNL 1, eNL 2, ePlain 3, ePlain 4]
      (fun _ => [0, 1, 2, 0]) (fun _ => [])).2.1,
   (C3_sorted_ids_ties none [[1], [2], [3], [4]]
      [str "g1", str "g2", str "g3", str "g4"]
      [eNL 1, eNL 2, ePlain 3, ePlain 4]
      (fun _ => [0, 1, 2, 0]) (fun _ => [])).2.2 (by decide) (by decide) 1⟩

/-- C4: a batch of exactly one email (one non-empty feature row, one id, one
processed email) yields exactly one cluster labelled "All Emails" with
description "All your recent emails" containing exactly that email. -/
theorem C4_single_email (n_clusters_arg : Option Nat) (v : List ℚ) (i : Str)
    (e : PEmail) (kmeansLabels : Nat → List Nat) (topFeatures : Mat → List Str)
    (hv : v ≠ []) :
    clusterEmails n_clusters_arg [v] [i] [e] kmeansLabels topFeatures =
      [{ id := 1, label := str "All Emails", description := str "All your recent emails",
         email_count := 1, emails := [e], email_ids := [i] }] := by
  have hsize : ¬ (matSize [v] = 0 ∨ ([i] : List Str) = []) := by
    intro h
    rcases h with h | h
    · exact hv (List.eq_nil_of_length_eq_zero (by simpa [matSize] using h))
    · simp at h
  have hk : clusterCountUsed n_clusters_arg 1 < 2 := by
    have h1 := Nat.min_le_right (initNClusters n_clusters_arg) 1
    simp only [clusterCountUsed]
    omega
  simp only [clusterEmails, if_neg hsize, List.length_singleton, if_pos hk,
    createSingleCluster]

/-- Witness for C4. -/
theorem C4_single_email_witness :
    clusterEmails none [[1]] [str "g1"] [ePlain 1] (fun _ => [0]) (fun _ => []) =
      [{ id := 1, label := str "All Emails", description := str "All your recent emails",
         email_count := 1, emails := [ePlain 1], email_ids := [str "g1"] }] :=
  C4_single_email none [1] (str "g1") (ePlain 1) (fun _ => [0]) (fun _ => [])
    (by decide)

theorem sub_toLower (n h : Str) (hlow : n.map Char.toLower = n)
    (hsub : isSubstring n h = true) : isSubstring n (toLowerStr h) = true := by
  have hm := isSubstring_map Char.toLower n h hsub
  rwa [hlow] at hm

theorem isPromotional_of_sale (subject body : Str)
    (h : isSubstring (str "sale") body = true) : isPromotional subject body = true := by
  simp only [isPromotional]
  exact List.any_eq_true.mpr ⟨str "sale", by decide,
    sub_toLower _ _ (by decide)
      (isSubstring_append_left _ _ _ (isSubstring_append_left _ _ _ h))⟩

theorem isNewsletter_of_unsubscribe (sender subject body : Str)
    (h : isSubstring (str "unsubscribe") body = true) :
    isNewsletter sender subject body = true := by
  simp only [isNewsletter]
  exact List.any_eq_true.mpr ⟨str "unsubscribe", by decide,
    sub_toLower _ _ (by decide)
      (isSubstring_append_left _ _ _ (isSubstring_append_left _ _ _
        (isSubstring_append_left _ _ _ (isSubstring_append_left _ _ _ h))))⟩

theorem isNotification_of_security (subject body : Str)
    (h : isSubstring (str "security") body = true) :
    isNotification subject body = true := by
  simp only [isNotification]
  exact List.any_eq_true.mpr ⟨str "security", by decide,
    sub_toLower _ _ (by decide)
      (isSubstring_append_left _ _ _ (isSubstring_append_left _ _ _ h))⟩

/-- C5 counterexample: the e-mail whose body is
`"50% off unsubscribe security alert"` contains all three of the claim's
phrases, yet `extract_features` leaves `is_promotional` false: after
cleaning, the body reads "off unsubscribe security alert" and none of the
promotional keywords (`sale`, `discount`, `offer`, …) occurs in it —
"50% off" matches no entry of the promotional keyword list. -/
theorem C5_counterexample :
    isSubstring (str "50% off") (str "50% off unsubscribe security alert") = true ∧
    isSubstring (str "unsubscribe") (str "50% off unsubscribe security alert") = true ∧
    isSubstring (str "security alert") (str "50% off unsubscribe security alert") = true ∧
    (extractFeatures splitWs id []
      { id := none, gmail_id := str "x", subject := [], sender := [],
        body := str "50% off unsubscribe security alert",
        date_received := 0, is_archived := false }).is_newsletter = true ∧
    (extractFeatures splitWs id []
      { id := none, gmail_id := str "x", subject := [], sender := [],
        body := str "50% off unsubscribe security alert",
        date_received := 0, is_archived := false }).is_notification = true ∧
    (extractFeatures splitWs id []
      { id := none, gmail_id := str "x", subject := [], sender := [],
        body := str "50% off unsubscribe security alert",
        date_received := 0, is_archived := false }).is_promotional = false := by
  decide

/-- C5 (amended): for every email whose cleaned body contains "sale",
"unsubscribe" and "security alert" as substrings, `extract_features` sets
`is_promotional`, `is_newsletter` and `is_notification` all true
simultaneously (the three keyword predicates are independent).  The claim's
"50% off" matches no promotional keyword, so a promotional keyword such as
"sale" is required, and the containment must survive the cleaning stage
(URL/address stripping can delete substrings of the raw body). -/
theorem C5_amended_signals (tok : Str → List Str) (stem : Str → Str)
    (stopWords : List Str) (e : RawEmail)
    (h1 : isSubstring (str "sale") (cleanText e.body) = true)
    (h2 : isSubstring (str "unsubscribe") (cleanText e.body) = true)
    (h3 : isSubstring (str "security alert") (cleanText e.body) = true) :
    (extractFeatures tok stem stopWords e).is_promotional = true ∧
    (extractFeatures tok stem stopWords e).is_newsletter = true ∧
    (extractFeatures tok stem stopWords e).is_notification = true := by
  refine ⟨?_, ?_, ?_⟩
  · show isPromotional (cleanText e.subject) (cleanText e.body) = true
    exact isPromotional_of_sale _ _ h1
  · show isNewsletter e.sender (cleanText e.subject) (cleanText e.body) = true
    exact isNewsletter_of_unsubscribe _ _ _ h2
  · show isNotification (cleanText e.subject) (cleanText e.body) = true
    exact isNotification_of_security _ _
      (isSubstring_trans (str "security") (str "security alert") _ (by decide) h3)

/-- Witness for the amended C5. -/
theorem C5_amended_signals_witness :
    (extractFeatures splitWs id []
      { id := none, gmail_id := str "x", subject := [], sender := [],
        body := str "big sale unsubscribe security alert",
        date_received := 0, is_archived := false }).is_promotional = true ∧
    (extractFeatures splitWs id []
      { id := none, gmail_id := str "x", subject := [], sender := [],
        body := str "big sale unsubscribe security alert",
        date_received := 0, is_archived := false }).is_newsletter = true ∧
    (extractFeatures splitWs id []
      { id := none, gmail_id := str "x", subject := [], sender := [],
        body := str "big sale unsubscribe security alert",
        date_received := 0, is_archived := false }).is_notification = true :=
  C5_amended_signals splitWs id []
    { id := none, gmail_id := str "x", subject := [], sender := [],
      body := str "big sale unsubscribe security alert",
      date_received := 0, is_archived := false }
    (by decide) (by decide) (by decide)

theorem withCount_contains (pre : Str) (total : Nat) :
    isSubstring (natStr total) (withCount pre total) = true := by
  rw [isSubstring_iff]
  exact ⟨pre, str " emails)", by simp [withCount]⟩

theorem sizeFallback_contains (total : Nat) :
    isSubstring (natStr total) (sizeFallback total).2 = true := by
  simp only [sizeFallback]
  repeat' split
  all_goals exact withCount_contains _ _

theorem subjectWordsLabel_contains (subjects : List Str) (total : Nat) :
    isSubstring (natStr total) (subjectWordsLabel subjects total).2 = true := by
  simp only [subjectWordsLabel]
  repeat' split
  all_goals first
    | exact withCount_contains _ _
    | exact sizeFallback_contains _

theorem generateContentBasedLabel_contains (cluster_emails : List PEmail)
    (sender_domains subjects : List Str) (topFeatures : Mat → List Str)
    (cluster_vectors : Mat) :
    isSubstring (natStr cluster_emails.length)
      (generateContentBasedLabel cluster_emails sender_domains subjects topFeatures
        cluster_vectors).2 = true := by
  simp only [generateContentBasedLabel]
  repeat' split
  all_goals first
    | exact withCount_contains _ _
    | exact subjectWordsLabel_contains _ _

/-- Every branch of the label/description cascade produces a description of
the shape `withCount pre total` with `total` the cluster size, so the
rendered count is always a substring. -/
theorem gLD_description_contains (cluster_emails : List PEmail)
    (topFeatures : Mat → List Str) (cluster_vectors : Mat) :
    isSubstring (natStr cluster_emails.length)
      (generateClusterLabelAndDescription cluster_emails topFeatures cluster_vectors).2
      = true := by
  simp only [generateClusterLabelAndDescription]
  repeat' split
  all_goals first
    | exact withCount_contains _ _
    | exact generateContentBasedLabel_contains _ _ _ _ _

theorem gLD_label_newsletter (cluster_emails : List PEmail)
    (topFeatures : Mat → List Str) (cluster_vectors : Mat)
    (h : 5 * cluster_emails.countP (fun e => e.is_newsletter) >
      3 * cluster_emails.length) :
    (generateClusterLabelAndDescription cluster_emails topFeatures cluster_vectors).1 =
      str "Newsletters & Subscriptions" := by
  simp only [generateClusterLabelAndDescription]
  rw [if_pos h]

/-- Every member of the K-means-branch output originates from a pre-sort
group: its label/description come from the cascade applied to its `emails`,
and `email_count` is the length of `emails`. -/
theorem cluster_mem_generateClusterInfo (k : Nat) (labels : List Nat)
    (processed : List PEmail) (ids : List Str) (vectors : Mat)
    (topFeatures : Mat → List Str) (c : Cluster)
    (hc : c ∈ generateClusterInfo k labels processed ids vectors topFeatures) :
    ∃ cid,
      c.label = (generateClusterLabelAndDescription (maskFilter labels cid processed)
        topFeatures (maskFilter labels cid vectors)).1 ∧
      c.description = (generateClusterLabelAndDescription (maskFilter labels cid processed)
        topFeatures (maskFilter labels cid vectors)).2 ∧
      c.emails = maskFilter labels cid processed ∧
      c.email_count = (maskFilter labels cid processed).length := by
  simp only [generateClusterInfo] at hc
  obtain ⟨c₀, hc₀, hlabel, hdesc, hemails, hcount⟩ := reassignIds_mem c 0 _ hc
  have hc₀' := (sortDescBy_perm (fun cl : Cluster => cl.email_count) _).mem_iff.mp hc₀
  simp only [preSortGroups, List.mem_filterMap] at hc₀'
  obtain ⟨cid, _, hsome⟩ := hc₀'
  by_cases hemp : (maskFilter labels cid processed).isEmpty
  · rw [if_pos hemp] at hsome
    simp at hsome
  · rw [if_neg hemp] at hsome
    injection hsome with hsome
    subst hsome
    exact ⟨cid, hlabel, hdesc, hemails, hcount⟩

/-- C6 counterexample: the synthetic fallback cluster returned for a
single-email batch has email_count 1 but the fixed description
"All your recent emails", which does not contain the literal count "1" —
so not every returned cluster's description contains its email count. -/
theorem C6_counterexample :
    clusterEmails none [[1]] [str "g1"] [ePlain 1] (fun _ => [0]) (fun _ => []) =
      [{ id := 1, label := str "All Emails", description := str "All your recent emails",
         email_count := 1, emails := [ePlain 1], email_ids := [str "g1"] }] ∧
    isSubstring (natStr 1) (str "All your recent emails") = false := by decide

/-- C6 (amended): every cluster synthesized by the K-means branch of
`cluster_emails` carries its literal member count in its description; the
single-cluster fallback's description is the fixed string
"All your recent emails", which contains no count. -/
theorem C6_amended_description_count (n_clusters_arg : Option Nat)
    (feature_vectors : Mat) (email_ids : List Str) (processed_emails : List PEmail)
    (kmeansLabels : Nat → List Nat) (topFeatures : Mat → List Str)
    (h1 : ¬ (matSize feature_vectors = 0 ∨ email_ids = []))
    (h2 : ¬ (clusterCountUsed n_clusters_arg feature_vectors.length < 2))
    (c : Cluster)
    (hc : c ∈ clusterEmails n_clusters_arg feature_vectors email_ids processed_emails
      kmeansLabels topFeatures) :
    isSubstring (natStr c.email_count) c.description = true := by
  simp only [clusterEmails, if_neg h1, if_neg h2] at hc
  obtain ⟨cid, _, hdesc, _, hcount⟩ :=
    cluster_mem_generateClusterInfo _ _ _ _ _ _ c hc
  rw [hdesc, hcount]
  exact gLD_description_contains _ _ _

/-- Witness for the amended C6: the largest cluster of the concrete
four-email batch carries "2" in its description. -/
theorem C6_amended_description_count_witness :
    isSubstring
      (natStr ((clusterEmails none [[1], [2], [3], [4]]
          [str "g1", str "g2", str "g3", str "g4"]
          [eNL 1, eNL 2, ePlain 3, ePlain 4]
          (fun _ => [0, 1, 2, 0]) (fun _ => [])).headD
        { id := 0, label := [], description := [], email_count := 0,
          emails := [], email_ids := [] }).email_count)
      ((clusterEmails none [[1], [2], [3], [4]]
          [str "g1", str "g2", str "g3", str "g4"]
          [eNL 1, eNL 2, ePlain 3, ePlain 4]
          (fun _ => [0, 1, 2, 0]) (fun _ => [])).headD
        { id := 0, label := [], description := [], email_count := 0,
          emails := [], email_ids := [] }).description = true :=
  C6_amended_description_count none [[1], [2], [3], [4]]
    [str "g1", str "g2", str "g3", str "g4"]
    [eNL 1, eNL 2, ePlain 3, ePlain 4]
    (fun _ => [0, 1, 2, 0]) (fun _ => [])
    (by decide) (by decide) _ (by decide)

/-- C7: a synthesized (K-means branch) cluster in which strictly more than
60% of the member emails are flagged `is_newsletter` is labelled
"Newsletters & Subscriptions", regardless of dominant sender domain or any
content rule (the newsletter test is the first rule of the cascade;
`count / total > 0.6` in floating point is the exact comparison
`5 * count > 3 * total`). -/
theorem C7_newsletter_label (n_clusters_arg : Option Nat) (feature_vectors : Mat)
    (email_ids : List Str) (processed_emails : List PEmail)
    (kmeansLabels : Nat → List Nat) (topFeatures : Mat → List Str)
    (h1 : ¬ (matSize feature_vectors = 0 ∨ email_ids = []))
    (h2 : ¬ (clusterCountUsed n_clusters_arg feature_vectors.length < 2))
    (c : Cluster)
    (hc : c ∈ clusterEmails n_clusters_arg feature_vectors email_ids processed_emails
      kmeansLabels topFeatures)
    (hnl : 5 * c.emails.countP (fun e => e.is_newsletter) > 3 * c.emails.length) :
    c.label = str "Newsletters & Subscriptions" := by
  simp only [clusterEmails, if_neg h1, if_neg h2] at hc
  obtain ⟨cid, hlabel, _, hemails, _⟩ :=
    cluster_mem_generateClusterInfo _ _ _ _ _ _ c hc
  rw [hemails] at hnl
  rw [hlabel]
  exact gLD_label_newsletter _ _ _ hnl

/-- Witness for C7: a concrete batch whose largest cluster is two newsletter
emails (100% > 60%). -/
theorem C7_newsletter_label_witness :
    ((clusterEmails none [[1], [2], [3], [4]]
        [str "g1", str "g2", str "g3", str "g4"]
        [eNL 1, eNL 2, ePlain 3, ePlain 4]
        (fun _ => [0, 0, 1, 2]) (fun _ => [])).headD
      { id := 0, label := [], description := [], email_count := 0,
        emails := [], email_ids := [] }).label = str "Newsletters & Subscriptions" :=
  C7_newsletter_label none [[1], [2], [3], [4]]
    [str "g1", str "g2", str "g3", str "g4"]
    [eNL 1, eNL 2, ePlain 3, ePlain 4]
    (fun _ => [0, 0, 1, 2]) (fun _ => [])
    (by decide) (by decide) _ (by decide) (by decide)

/-- C8: calling `transform` before `fit_transform` has succeeded (that is,
while `is_fitted` is false — its initial state, which only a successful fit
changes) raises `ValueError("Vectorizer must be fitted before transform")`
immediately; nothing is computed or returned. -/
theorem C8_transform_before_fit (v : EmailVectorizer)
    (processed_emails : List PEmail) (core : List Str → Mat → Except String Mat)
    (h : v.is_fitted = false) :
    EmailVectorizer.transform v processed_emails core =
      Except.error "Vectorizer must be fitted before transform" := by
  simp [EmailVectorizer.transform, h]

/-- Witness for C8: the freshly-initialized vectorizer. -/
theorem C8_transform_before_fit_witness :
    EmailVectorizer.transform EmailVectorizer.init [] (fun _ _ => Except.ok []) =
      Except.error "Vectorizer must be fitted before transform" :=
  C8_transform_before_fit EmailVectorizer.init [] (fun _ _ => Except.ok []) rfl

/-- C9: `preprocess_emails` never fails the batch — it equals `filterMap` of
the fallible per-email extraction: every email whose extraction raises is
skipped and every other email's features appear, in input order. -/
theorem C9_preprocess_skips_failures (extract : RawEmail → Except String PEmail)
    (emails : List RawEmail) :
    preprocessEmails extract emails =
      emails.filterMap (fun e => (extract e).toOption) := by
  induction emails with
  | nil => rfl
  | cons e rest ih =>
    cases h : extract e <;>
      simp [preprocessEmails, h, List.filterMap_cons, Except.toOption, ih]

/-- C10: after a successful fit, `transform` fails soft exactly like
`fit_transform`: when the numeric core raises, both return the empty matrix
paired with the gmail ids of all input emails, in input order. -/
theorem C10_transform_soft_failure (v v2 : EmailVectorizer)
    (processed_emails : List PEmail)
    (core core2 : List Str → Mat → Except String Mat) (msg msg2 : String)
    (hf : v.is_fitted = true)
    (he : core (processed_emails.map combineTextFeatures)
      (extractAdditionalFeatures processed_emails) = Except.error msg)
    (he2 : core2 (processed_emails.map combineTextFeatures)
      (extractAdditionalFeatures processed_emails) = Except.error msg2) :
    EmailVectorizer.transform v processed_emails core =
      Except.ok ([], processed_emails.map (fun e => e.gmail_id))
    ∧ (EmailVectorizer.fitTransform v2 processed_emails core2).2 =
      ([], processed_emails.map (fun e => e.gmail_id)) := by
  constructor
  · by_cases hemp : processed_emails.isEmpty
    · have he0 : processed_emails = [] := by simpa [List.isEmpty_iff] using hemp
      subst he0
      simp [EmailVectorizer.transform, hf]
    · simp [EmailVectorizer.transform, hf, hemp, he]
  · by_cases hemp : processed_emails.isEmpty
    · have he0 : processed_emails = [] := by simpa [List.isEmpty_iff] using hemp
      subst he0
      simp [EmailVectorizer.fitTransform]
    · simp [EmailVectorizer.fitTransform, hemp, he2]

/-- Witness for C10 at a one-email batch and an erroring numeric core. -/
theorem C10_transform_soft_failure_witness :
    EmailVectorizer.transform { is_fitted := true } [ePlain 1]
      (fun _ _ => Except.error "numerical error") =
      Except.ok ([], [ePlain 1].map (fun e => e.gmail_id))
    ∧ (EmailVectorizer.fitTransform EmailVectorizer.init [ePlain 1]
        (fun _ _ => Except.error "numerical error")).2 =
      ([], [ePlain 1].map (fun e => e.gmail_id)) :=
  C10_transform_soft_failure { is_fitted := true } EmailVectorizer.init [ePlain 1]
    (fun _ _ => Except.error "numerical error")
    (fun _ _ => Except.error "numerical error")
    "numerical error" "numerical error" rfl rfl rfl
